import Mathlib

/-!
Shallow embedding of the world-creation and transaction-watchdog core of the
repository (package `world`, files `conf.go` and `debug.go`), together with
proofs of the specified properties.

Conventions of the embedding:
* Go `time.Duration` is an `Int` counting nanoseconds.
* The transaction channel `make(chan transaction, 128)` is a bounded FIFO; its
  buffered contents are a `List Transaction` (head = next to be received) plus
  the capacity field.  FIFO receive order and blocking sends are primitives of
  Go channels; the capacity and the drain behaviour are what the claims are
  about and are modelled explicitly.
* The atomic counter `s.ref` is made explicit: `Config.New` receives the
  Settings value returned by `conf.Provider.Settings()` and returns the updated
  Settings next to the World, turning the atomic `ref.Add(1)` into explicit
  state passing.
* `runtime`-stack-based caller information (`captureCallerInfo`, debug.go) is a
  `List String` of trace lines carried by each transaction.
* World fields that no sampled claim touches (chunk map, entity index, viewers,
  scheduled tick queue, RNG state, dimension range, weather, handler) are not
  modelled.
-/

/-- Go `time.Duration`: a count of nanoseconds. -/
abbrev Duration := Int

/-- Go `time.Second`. -/
def timeSecond : Duration := 1000000000

/-- Go `time.Minute`. -/
def timeMinute : Duration := 60 * timeSecond

/-- A `world.Dimension` value. `overworld` is the package-level `Overworld`
used as the default; other dimensions are opaque. -/
inductive Dimension where
  | overworld
  | nether
  | theEnd
  | custom (id : Nat)
deriving DecidableEq

/-- A `world.Provider` value. `nopProvider` is the `NopProvider{}` default that
stores nothing; other providers are opaque. -/
inductive Provider where
  | nopProvider
  | provider (id : Nat)
deriving DecidableEq

/-- A `world.Generator` value. `nopGenerator` is the `NopGenerator{}` default
producing empty chunks; other generators are opaque. -/
inductive Generator where
  | nopGenerator
  | generator (id : Nat)
deriving DecidableEq

/-- An `*slog.Logger` value. `defaultLogger` is `slog.Default()`. -/
inductive Logger where
  | defaultLogger
  | logger (id : Nat)
deriving DecidableEq

/-- A `rand.Source`. `pcg a b` is `rand.NewPCG(a, b)`; the nil default is
`rand.NewPCG(t, t)` with `t = uint64(time.Now().UnixNano())`. -/
inductive RandSource where
  | pcg (seed1 seed2 : Nat)
  | source (id : Nat)
deriving DecidableEq

/-- `world.EntityRegistry`: the set of registered entity kinds. -/
structure EntityRegistry where
  kinds : List String
deriving DecidableEq

/-- `world.Config` (conf.go lines 12-59). Nilable interface/pointer fields are
`Option`s. The `PortalDestination` function field is omitted: no sampled claim
mentions it and it is otherwise unused by `Config.New`. -/
structure Config where
  log : Option Logger
  dim : Option Dimension
  provider : Option Provider
  generator : Option Generator
  readOnly : Bool
  saveInterval : Duration
  randomTickSpeed : Int
  randSource : Option RandSource
  entities : EntityRegistry
deriving DecidableEq

/-- The persisted `Settings` returned by `Provider.Settings()`: the world name
used by `w.Name()`, the current tick, and the shared reference count `ref`
(an atomic counter; its value is threaded explicitly here). -/
structure Settings where
  name : String
  currentTick : Int
  ref : Nat
deriving DecidableEq

/-- A `world.transaction` as the sampled code uses it: the caller information
captured at submission (`captureCallerInfo`, debug.go, exposed through
`CallerInfo()`) and a marker for the tick transaction submitted by the ticker.
The mutation closure itself is opaque to all sampled claims. -/
structure Transaction where
  callerInfo : List String
  isTick : Bool
deriving DecidableEq

/-- The fields of `world.World` written by `Config.New` that the sampled claims
are about (conf.go lines 87-104). `queue`/`queueCap` model
`make(chan transaction, 128)`; `closing` models whether the `closing` channel
has been closed; `running` is the `sync.WaitGroup` counter; `runningTx` and
`runningTxAt` form the record of the currently executing transaction read by
the watchdog; `executed` is the history of transactions the Executor has run. -/
structure World where
  name : String
  set : Settings
  conf : Config
  queueCap : Nat
  queue : List Transaction
  closing : Bool
  advance : Bool
  running : Nat
  runningTx : Option Transaction
  runningTxAt : Int
  executed : List Transaction

/-- conf.go lines 64-66: `if conf.Log == nil { conf.Log = slog.Default() }`. -/
def withLog (c : Config) : Config :=
  if c.log = none then { c with log := some Logger.defaultLogger } else c

/-- conf.go lines 67-69: `if conf.Dim == nil { conf.Dim = Overworld }`. -/
def withDim (c : Config) : Config :=
  if c.dim = none then { c with dim := some Dimension.overworld } else c

/-- conf.go lines 70-72: `if conf.Provider == nil { conf.Provider = NopProvider{} }`. -/
def withProvider (c : Config) : Config :=
  if c.provider = none then { c with provider := some Provider.nopProvider } else c

/-- conf.go lines 73-75: `if conf.SaveInterval == 0 { conf.SaveInterval = time.Minute * 10 }`. -/
def withSaveInterval (c : Config) : Config :=
  if c.saveInterval = 0 then { c with saveInterval := timeMinute * 10 } else c

/-- conf.go lines 76-78: `if conf.Generator == nil { conf.Generator = NopGenerator{} }`. -/
def withGenerator (c : Config) : Config :=
  if c.generator = none then { c with generator := some Generator.nopGenerator } else c

/-- conf.go lines 79-81: `if conf.RandomTickSpeed == 0 { conf.RandomTickSpeed = 3 }`. -/
def withRandomTick (c : Config) : Config :=
  if c.randomTickSpeed = 0 then { c with randomTickSpeed := 3 } else c

/-- conf.go lines 82-85: `if conf.RandSource == nil { conf.RandSource = rand.NewPCG(t, t) }`
with `t = uint64(time.Now().UnixNano())`, passed in as `now`. -/
def withRandSource (c : Config) (now : Nat) : Config :=
  if c.randSource = none then { c with randSource := some (RandSource.pcg now now) } else c

/-- The defaulting chain at the top of `Config.New` (conf.go lines 64-85), in
source order. -/
def Config.normalize (c : Config) (now : Nat) : Config :=
  withRandSource (withRandomTick (withGenerator (withSaveInterval (withProvider (withDim (withLog c)))))) now

/-- Modelled from the spec: one Executor step (spec section 4.1; the Executor
loop `handleTransactions` lives in a file that was not sampled). The Executor
pulls the front transaction from the FIFO queue, runs it exclusively to
completion, then signals completion; here a completed run is recorded by
appending the transaction to `executed`. -/
def execStep (w : World) : World :=
  match w.queue with
  | [] => w
  | tx :: rest => { w with queue := rest, executed := w.executed ++ [tx] }

/-- Modelled from the spec: awaiting the completion handle of a submitted
transaction (`<-w.Exec(...)`, spec section 4.1) blocks the caller until the
Executor has fully executed that transaction. Execution is driven for as many
Executor steps as the queue holds, stopping as soon as the awaited transaction
has been executed. -/
def awaitGo : Nat → Transaction → World → World
  | 0, _, w => w
  | n + 1, tx, w => if tx ∈ w.executed then w else awaitGo n tx (execStep w)

/-- Modelled from the spec: `<-handle` for a transaction currently in the
queue; see `awaitGo`. -/
def await (w : World) (tx : Transaction) : World :=
  awaitGo w.queue.length tx w

/-- `Config.New` (conf.go lines 63-164). `now` is the `time.Now().UnixNano()`
reading used to seed the default PCG source; `s` is the Settings value returned
by `conf.Provider.Settings()`; `tickTrace` is the caller information captured
for the initial tick transaction. The World literal follows conf.go lines
87-99: the queue is `make(chan transaction, 128)` (empty, capacity 128), the
advancing flag is `s.ref.Add(1) == 1` (the updated shared Settings value is
returned next to the World), constructing is followed by `w.running.Add(4)`
(line 104, the WaitGroup counter starting from zero) before the four background
goroutines are started (lines 106-160), and finally `<-w.Exec(t.tick)` (line
162) enqueues the initial tick transaction and blocks until the Executor has
run it. The goroutine bodies themselves are modelled separately
(`watchdogCheck`, `execStep`, `bgTaskExit`). -/
def Config.New (conf : Config) (now : Nat) (s : Settings) (tickTrace : List String) : World × Settings :=
  let conf := conf.normalize now
  let w : World :=
    { name := s.name
      set := { s with ref := s.ref + 1 }
      conf := conf
      queueCap := 128
      queue := []
      closing := false
      advance := s.ref + 1 == 1
      running := 4
      runningTx := none
      runningTxAt := 0
      executed := [] }
  let tickTx : Transaction := { callerInfo := tickTrace, isTick := true }
  let w := await { w with queue := w.queue ++ [tickTx] } tickTx
  (w, { s with ref := s.ref + 1 })

/-- `msg += "\n" + trace` over a range of trace lines (conf.go lines 136-138
and 147-149). -/
def appendTraces (msg : String) (traces : List String) : String :=
  traces.foldl (fun m trace => m ++ "\n" ++ trace) msg

/-- One stack-trace block of the pending-transaction report (conf.go lines
134-139), for the transaction received as number `no`. -/
def traceBlock (msg : String) (no : Nat) (tx : Transaction) : String :=
  let msg := msg ++ "\n\n" ++ "TX NO " ++ toString no ++ ":"
  let msg := msg ++ "\n------------------ BEGIN stack trace ------------------"
  let msg := appendTraces msg tx.callerInfo
  msg ++ "\n------------------- END stack trace -------------------"

/-- The pending-transaction drain loop of the watchdog (conf.go lines
124-143). In the Go source the `break` under `if no > 10` exits only the inner
`select`, not the `for` loop, so the loop keeps receiving from the channel
until the `default` case fires on an empty queue: every pending transaction is
received; those numbered 11 and higher contribute only an ellipsis line instead
of a trace block. Returns the number of transactions received together with the
accumulated message; the queue is left empty. -/
def drainLoop : Nat → String → List Transaction → Nat × String
  | no, msg, [] => (no, msg)
  | no, msg, tx :: rest =>
    let no := no + 1
    if no > 10 then drainLoop no (msg ++ "\n...") rest
    else drainLoop no (traceBlock msg no tx) rest

/-- The diagnostic message assembled when the watchdog fires (conf.go lines
120-150), for a world `w` whose running transaction is `tx`. -/
def panicMessage (w : World) (tx : Transaction) : String :=
  let msg := "Deadlock detected in world transaction. The transaction has been running for more than 20 seconds."
  let msg := msg ++ "\n\nWORLD NAME: " ++ w.name
  let msg := msg ++ "\n\nPENDING TRANSACTIONS:"
  let msg := (drainLoop 0 msg w.queue).2
  let msg := msg ++ "\n\nHANGING TRANSACTION:"
  let msg := msg ++ "\n------------------ BEGIN stack trace ------------------"
  let msg := appendTraces msg tx.callerInfo
  msg ++ "\n------------------- END stack trace -------------------"

/-- One once-per-second check of the Deadlock Watchdog goroutine (conf.go
lines 115-154): under the `runningTxMu` lock, if a transaction is recorded as
running and has been running for strictly more than 20 seconds, the queue is
drained into a diagnostic message and the goroutine panics with it. Returns
the panic message when the check fires (`none` otherwise) together with the
world state the check leaves behind. -/
def watchdogCheck (w : World) (now : Int) : Option String × World :=
  match w.runningTx with
  | none => (none, w)
  | some tx =>
    if now - w.runningTxAt > 20 * timeSecond then
      (some (panicMessage w tx), { w with queue := [] })
    else
      (none, w)

/-- The four background goroutines started by `Config.New` (conf.go lines
106-160): the ticker loop, the auto-save loop, the transaction Executor, and
the deadlock watchdog. -/
inductive BgTask where
  | tickDriver
  | autoSaveWorker
  | executor
  | watchdog
deriving DecidableEq

/-- A background task exiting decrements the WaitGroup counter by one. For the
watchdog this is conf.go lines 155-157 (`case <-w.closing: w.running.Done()`);
the bodies of `tickLoop`, `autoSave` and `handleTransactions` are in files that
were not sampled, and are modelled from the spec (section 4.5): each background
task decrements the counter on exit. -/
def bgTaskExit (w : World) (t : BgTask) : World :=
  match t with
  | _ => { w with running := w.running - 1 }

/-- The effect on the counter of a set of background tasks having exited. -/
def exitAll (w : World) (ts : List BgTask) : World :=
  ts.foldl bgTaskExit w

/-!
String-containment infrastructure used to state what the diagnostic message
contains. `strHas s pat` decides whether `pat` occurs as a contiguous
substring of `s`.
-/

/-- `leadsWith l p` is true when `p` is an initial segment of `l`. -/
def leadsWith : List Char → List Char → Bool
  | _, [] => true
  | [], _ :: _ => false
  | a :: as, b :: bs => a == b && leadsWith as bs

/-- `hasSub l p` is true when `p` occurs contiguously inside `l`. -/
def hasSub : List Char → List Char → Bool
  | [], p => p.isEmpty
  | a :: as, p => leadsWith (a :: as) p || hasSub as p

/-- `strHas s pat` is true when `pat` occurs as a contiguous substring of `s`. -/
def strHas (s pat : String) : Bool :=
  hasSub s.toList pat.toList

theorem leadsWith_append (p t : List Char) : leadsWith (p ++ t) p = true := by
  induction p with
  | nil => cases t <;> rfl
  | cons a as ih => simp [leadsWith, ih]

theorem leadsWith_append_r (l p t : List Char) (h : leadsWith l p = true) :
    leadsWith (l ++ t) p = true := by
  induction p generalizing l with
  | nil => cases l ++ t <;> rfl
  | cons b bs ih =>
    cases l with
    | nil => simp [leadsWith] at h
    | cons a as =>
      simp only [leadsWith, Bool.and_eq_true] at h
      simp only [List.cons_append, leadsWith, Bool.and_eq_true]
      exact ⟨h.1, ih as h.2⟩

theorem hasSub_nil (l : List Char) : hasSub l [] = true := by
  cases l <;> simp [hasSub, leadsWith, List.isEmpty]

theorem hasSub_here (p t : List Char) : hasSub (p ++ t) p = true := by
  cases p with
  | nil => simpa using hasSub_nil t
  | cons a as =>
    simp only [List.cons_append, hasSub, Bool.or_eq_true]
    exact Or.inl (leadsWith_append (a :: as) t)

theorem hasSub_append_r (l t p : List Char) (h : hasSub l p = true) :
    hasSub (l ++ t) p = true := by
  induction l with
  | nil =>
    simp only [hasSub, List.isEmpty_iff] at h
    subst h
    simpa using hasSub_nil t
  | cons a as ih =>
    simp only [hasSub, Bool.or_eq_true] at h
    simp only [List.cons_append, hasSub, Bool.or_eq_true]
    rcases h with h | h
    · exact Or.inl (leadsWith_append_r _ _ _ h)
    · exact Or.inr (ih h)

theorem hasSub_append_l (t l p : List Char) (h : hasSub l p = true) :
    hasSub (t ++ l) p = true := by
  induction t with
  | nil => simpa using h
  | cons a ts ih =>
    simp only [List.cons_append, hasSub, Bool.or_eq_true]
    exact Or.inr ih

theorem toList_append (a b : String) : (a ++ b).toList = a.toList ++ b.toList := by
  cases a; cases b; rfl

theorem strHas_self (p : String) : strHas p p = true := by
  have h := hasSub_here p.toList []
  simpa [strHas] using h

theorem strHas_append_r (s t p : String) (h : strHas s p = true) :
    strHas (s ++ t) p = true := by
  unfold strHas at *
  rw [toList_append]
  exact hasSub_append_r _ _ _ h

theorem strHas_append_l (t s p : String) (h : strHas s p = true) :
    strHas (t ++ s) p = true := by
  unfold strHas at *
  rw [toList_append]
  exact hasSub_append_l _ _ _ h

theorem strHas_appendTraces_mono (l : List String) (m p : String)
    (h : strHas m p = true) :
    strHas (appendTraces m l) p = true := by
  induction l generalizing m with
  | nil => simpa [appendTraces] using h
  | cons tr l ih =>
    simp only [appendTraces, List.foldl_cons] at *
    exact ih _ (strHas_append_r _ _ _ (strHas_append_r _ _ _ h))

theorem strHas_appendTraces_mem (l : List String) (m line : String)
    (h : line ∈ l) :
    strHas (appendTraces m l) line = true := by
  induction l generalizing m with
  | nil => cases h
  | cons tr l ih =>
    simp only [appendTraces, List.foldl_cons]
    rcases List.mem_cons.mp h with rfl | h2
    · exact strHas_appendTraces_mono l _ _ (strHas_append_l _ _ _ (strHas_self line))
    · exact ih _ h2

theorem strHas_traceBlock_mono (msg : String) (no : Nat) (tx : Transaction)
    (p : String) (h : strHas msg p = true) :
    strHas (traceBlock msg no tx) p = true := by
  unfold traceBlock
  apply strHas_append_r
  apply strHas_appendTraces_mono
  apply strHas_append_r
  apply strHas_append_r
  apply strHas_append_r
  apply strHas_append_r
  apply strHas_append_r
  exact h

theorem strHas_traceBlock_mem (msg : String) (no : Nat) (tx : Transaction)
    (line : String) (h : line ∈ tx.callerInfo) :
    strHas (traceBlock msg no tx) line = true := by
  unfold traceBlock
  exact strHas_append_r _ _ _ (strHas_appendTraces_mem _ _ _ h)

theorem strHas_drainLoop_mono (q : List Transaction) (no : Nat) (msg p : String)
    (h : strHas msg p = true) :
    strHas (drainLoop no msg q).2 p = true := by
  induction q generalizing no msg with
  | nil => simpa [drainLoop] using h
  | cons tx rest ih =>
    unfold drainLoop
    by_cases h10 : no + 1 > 10
    · simp only [h10, if_true]
      exact ih _ _ (strHas_append_r _ _ _ h)
    · simp only [h10, if_false]
      exact ih _ _ (strHas_traceBlock_mono _ _ _ _ h)

theorem strHas_drainLoop_mem (q : List Transaction) (no : Nat) (msg : String)
    (tx : Transaction) (line : String)
    (htx : tx ∈ q.take (10 - no)) (hline : line ∈ tx.callerInfo) :
    strHas (drainLoop no msg q).2 line = true := by
  induction q generalizing no msg with
  | nil => simp at htx
  | cons t rest ih =>
    match h10 : 10 - no with
    | 0 => rw [h10] at htx; simp at htx
    | k + 1 =>
      rw [h10, List.take_succ_cons] at htx
      have hle : ¬ (no + 1 > 10) := by omega
      unfold drainLoop
      simp only [hle, if_false]
      rcases List.mem_cons.mp htx with rfl | h2
      · exact strHas_drainLoop_mono _ _ _ _ (strHas_traceBlock_mem _ _ _ _ hline)
      · have hk : k = 10 - (no + 1) := by omega
        exact ih (no + 1) _ (hk ▸ h2)

theorem drainLoop_count (q : List Transaction) (no : Nat) (msg : String) :
    (drainLoop no msg q).1 = no + q.length := by
  induction q generalizing no msg with
  | nil => simp [drainLoop]
  | cons tx rest ih =>
    unfold drainLoop
    by_cases h10 : no + 1 > 10 <;> simp only [h10, if_true, if_false] <;>
      rw [ih] <;> simp <;> omega

/-!
Concrete example values used by counterexamples and witnesses.
-/

/-- A Config with every nilable field nil and every numeric field zero. -/
def cfgBlank : Config :=
  { log := none, dim := none, provider := none, generator := none,
    readOnly := false, saveInterval := 0, randomTickSpeed := 0,
    randSource := none, entities := { kinds := [] } }

/-- A Config that sets a negative SaveInterval. -/
def cfgNegSave : Config := { cfgBlank with saveInterval := -1 }

/-- A fresh Settings value with reference count zero. -/
def setBlank : Settings := { name := "Example", currentTick := 0, ref := 0 }

/-- A numbered transaction with a one-line caller trace. -/
def txNum (i : Nat) : Transaction :=
  { callerInfo := ["caller " ++ toString i], isTick := false }

/-- A world state in which a transaction has been stuck while 12 further
transactions queued up behind it. -/
def wC1 : World :=
  { name := "Example", set := setBlank, conf := cfgBlank, queueCap := 128,
    queue := (List.range 12).map txNum, closing := false, advance := true,
    running := 4, runningTx := some (txNum 100), runningTxAt := 0, executed := [] }

/-- The stuck transaction of the `wC2` example. -/
def hangTx : Transaction := { callerInfo := ["hanging caller"], isTick := false }

/-- The single pending transaction of the `wC2` example. -/
def pendTx : Transaction := { callerInfo := ["pending caller"], isTick := false }

/-- A world state with one stuck and one pending transaction. -/
def wC2 : World :=
  { name := "Example", set := setBlank, conf := cfgBlank, queueCap := 128,
    queue := [pendTx], closing := false, advance := true, running := 4,
    runningTx := some hangTx, runningTxAt := 0, executed := [] }

/-!
Field-level description of the defaulting chain, shared by the claims about
configuration defaults.
-/

theorem normalize_fields (c : Config) (now : Nat) :
    (c.normalize now).log = (if c.log = none then some Logger.defaultLogger else c.log) ∧
    (c.normalize now).dim = (if c.dim = none then some Dimension.overworld else c.dim) ∧
    (c.normalize now).provider = (if c.provider = none then some Provider.nopProvider else c.provider) ∧
    (c.normalize now).saveInterval = (if c.saveInterval = 0 then timeMinute * 10 else c.saveInterval) ∧
    (c.normalize now).generator = (if c.generator = none then some Generator.nopGenerator else c.generator) ∧
    (c.normalize now).randomTickSpeed = (if c.randomTickSpeed = 0 then 3 else c.randomTickSpeed) ∧
    (c.normalize now).readOnly = c.readOnly := by
  obtain ⟨log, dim, prov, gen, ro, si, rts, rs, ent⟩ := c
  simp only [Config.normalize, withLog, withDim, withProvider, withSaveInterval,
    withGenerator, withRandomTick, withRandSource,
    apply_ite Config.log, apply_ite Config.dim, apply_ite Config.provider,
    apply_ite Config.saveInterval, apply_ite Config.generator,
    apply_ite Config.randomTickSpeed, apply_ite Config.readOnly,
    apply_ite Config.randSource, ite_self]
  exact ⟨trivial, trivial, trivial, trivial, trivial, trivial, trivial⟩

theorem new_conf_eq (conf : Config) (now : Nat) (s : Settings) (tr : List String) :
    (Config.New conf now s tr).1.conf = conf.normalize now := rfl

/-!
Claims C3, C5, C6, C7, C8: configuration defaulting and World construction.
-/

/-- C3 counterexample: the claim says a RandomTickSpeed of zero leaves random
ticking disabled (zero not replaced by a positive default). On the code,
`Config.New` replaces a zero RandomTickSpeed by the positive default 3
(conf.go lines 79-81), so the created World random-ticks at the default rate. -/
theorem C3_counterexample :
    cfgBlank.randomTickSpeed = 0 ∧
    (Config.New cfgBlank 7 setBlank ["trace"]).1.conf.randomTickSpeed = 3 ∧
    ¬ (Config.New cfgBlank 7 setBlank ["trace"]).1.conf.randomTickSpeed ≤ 0 := by
  decide

/-- C3 (amended): `Config.New` replaces a RandomTickSpeed of exactly 0 by the
default 3 (random ticking enabled at the default rate); any other value, in
particular any negative value (which disables random ticking), is left
unchanged. -/
theorem C3_random_tick_default (conf : Config) (now : Nat) (s : Settings) (tr : List String) :
    (Config.New conf now s tr).1.conf.randomTickSpeed =
      (if conf.randomTickSpeed = 0 then 3 else conf.randomTickSpeed) := by
  rw [new_conf_eq]
  exact (normalize_fields conf now).2.2.2.2.2.1

/-- C5: the World created by `Config.New` has a transaction queue with a fixed
capacity of exactly 128 pending items (conf.go line 93,
`make(chan transaction, 128)`), which is empty by the time `New` returns;
receive order of a Go channel is FIFO. -/
theorem C5_queue_capacity (conf : Config) (now : Nat) (s : Settings) (tr : List String) :
    (Config.New conf now s tr).1.queueCap = 128 ∧
    (Config.New conf now s tr).1.queue = [] :=
  ⟨rfl, rfl⟩

/-- C6: for every Config with an absent (nil) collaborator, `Config.New`
substitutes the explicit default: a nil Provider becomes `NopProvider`, a nil
Generator becomes `NopGenerator`, a nil Dim becomes `Overworld`, and a nil Log
becomes `slog.Default()` (conf.go lines 64-78). -/
theorem C6_nil_defaults (conf : Config) (now : Nat) (s : Settings) (tr : List String) :
    (conf.provider = none →
      (Config.New conf now s tr).1.conf.provider = some Provider.nopProvider) ∧
    (conf.generator = none →
      (Config.New conf now s tr).1.conf.generator = some Generator.nopGenerator) ∧
    (conf.dim = none →
      (Config.New conf now s tr).1.conf.dim = some Dimension.overworld) ∧
    (conf.log = none →
      (Config.New conf now s tr).1.conf.log = some Logger.defaultLogger) := by
  have hf := normalize_fields conf now
  refine ⟨fun h => ?_, fun h => ?_, fun h => ?_, fun h => ?_⟩
  · rw [new_conf_eq, hf.2.2.1, if_pos h]
  · rw [new_conf_eq, hf.2.2.2.2.1, if_pos h]
  · rw [new_conf_eq, hf.2.1, if_pos h]
  · rw [new_conf_eq, hf.1, if_pos h]

/-- C6 witness: a Config with all four collaborators nil receives all four
defaults. -/
theorem C6_nil_defaults_witness :
    (cfgBlank.provider = none ∧ cfgBlank.generator = none ∧
     cfgBlank.dim = none ∧ cfgBlank.log = none) ∧
    ((Config.New cfgBlank 7 setBlank ["trace"]).1.conf.provider = some Provider.nopProvider ∧
     (Config.New cfgBlank 7 setBlank ["trace"]).1.conf.generator = some Generator.nopGenerator ∧
     (Config.New cfgBlank 7 setBlank ["trace"]).1.conf.dim = some Dimension.overworld ∧
     (Config.New cfgBlank 7 setBlank ["trace"]).1.conf.log = some Logger.defaultLogger) :=
  ⟨⟨rfl, rfl, rfl, rfl⟩,
   ⟨(C6_nil_defaults cfgBlank 7 setBlank ["trace"]).1 rfl,
    (C6_nil_defaults cfgBlank 7 setBlank ["trace"]).2.1 rfl,
    (C6_nil_defaults cfgBlank 7 setBlank ["trace"]).2.2.1 rfl,
    (C6_nil_defaults cfgBlank 7 setBlank ["trace"]).2.2.2 rfl⟩⟩

/-- C7: a SaveInterval of exactly 0 is replaced by the default of 10 minutes
(conf.go lines 73-75); a negative SaveInterval is left unchanged, which
disables automatic saving per the field documentation (conf.go lines 36-41). -/
theorem C7_save_interval (conf : Config) (now : Nat) (s : Settings) (tr : List String) :
    (conf.saveInterval = 0 →
      (Config.New conf now s tr).1.conf.saveInterval = timeMinute * 10) ∧
    (conf.saveInterval < 0 →
      (Config.New conf now s tr).1.conf.saveInterval = conf.saveInterval) := by
  have hf := (normalize_fields conf now).2.2.2.1
  constructor
  · intro h0
    rw [new_conf_eq, hf, if_pos h0]
  · intro hneg
    have h0 : ¬ conf.saveInterval = 0 := ne_of_lt hneg
    rw [new_conf_eq, hf, if_neg h0]

/-- C7 witness: SaveInterval 0 becomes 10 minutes; SaveInterval -1 stays -1. -/
theorem C7_save_interval_witness :
    (cfgBlank.saveInterval = 0 ∧
     (Config.New cfgBlank 7 setBlank ["trace"]).1.conf.saveInterval = timeMinute * 10) ∧
    (cfgNegSave.saveInterval < 0 ∧
     (Config.New cfgNegSave 7 setBlank ["trace"]).1.conf.saveInterval = cfgNegSave.saveInterval) :=
  ⟨⟨rfl, (C7_save_interval cfgBlank 7 setBlank ["trace"]).1 rfl⟩,
   ⟨by decide, (C7_save_interval cfgNegSave 7 setBlank ["trace"]).2 (by decide)⟩⟩

/-- C8: the World created by `Config.New` is the advancing instance exactly
when the atomic increment of the shared reference count returns 1, i.e. when
this instance is the first to increment the count from 0 (conf.go line 95,
`advance: s.ref.Add(1) == 1`); the shared count is left incremented by one, so
every later instance over the same settings sees a non-zero prior count and is
passive. -/
theorem C8_advance_iff_first (conf : Config) (now : Nat) (s : Settings) (tr : List String) :
    ((Config.New conf now s tr).1.advance = true ↔ s.ref = 0) ∧
    (Config.New conf now s tr).2.ref = s.ref + 1 := by
  have hadv : (Config.New conf now s tr).1.advance = (s.ref + 1 == 1) := rfl
  refine ⟨?_, rfl⟩
  rw [hadv]
  simp only [beq_iff_eq]
  omega

/-!
Claims C4, C1, C2: the Deadlock Watchdog.
-/

/-- C4: a once-per-second check of the Deadlock Watchdog raises the fatal
failure if and only if a transaction is recorded in the running-transaction
record and has been running for strictly longer than the 20-second threshold
(conf.go line 119); in particular it never fires while the elapsed time is at
or below the threshold, and never fires when no transaction is recorded. -/
theorem C4_watchdog_fires_iff (w : World) (now : Int) :
    (watchdogCheck w now).1.isSome = true ↔
      (w.runningTx.isSome = true ∧ now - w.runningTxAt > 20 * timeSecond) := by
  cases h : w.runningTx with
  | none => simp [watchdogCheck, h]
  | some tx =>
    by_cases hc : now - w.runningTxAt > 20 * timeSecond <;>
      simp [watchdogCheck, h, hc]

/-- C1 counterexample: with 12 transactions pending behind a stuck one, the
claim says at most 10 are dequeued and the 2 beyond remain queued; on the code
the drain loop (conf.go lines 124-143, whose `break` exits only the inner
`select`) receives until the channel is empty, so afterwards no pending
transaction remains queued. -/
theorem C1_counterexample :
    wC1.queue.length = 12 ∧
    (watchdogCheck wC1 (21 * timeSecond)).1.isSome = true ∧
    (watchdogCheck wC1 (21 * timeSecond)).2.queue = [] ∧
    ¬ (watchdogCheck wC1 (21 * timeSecond)).2.queue = wC1.queue.drop 10 :=
  ⟨rfl, rfl, rfl, fun h => List.cons_ne_nil _ _ h.symm⟩

/-- C1 (amended): when the Deadlock Watchdog fires, its drain loop dequeues
every pending transaction from the transaction queue (leaving it empty), not
just the first 10; diagnostic trace blocks are emitted only for the first 10
received, each later one contributing an ellipsis line. The drain count always
equals the number of queued transactions. -/
theorem C1_drains_entire_queue (w : World) (now : Int) (msg : String) (no : Nat)
    (hfire : (watchdogCheck w now).1.isSome = true) :
    (watchdogCheck w now).2.queue = [] ∧
    (drainLoop no msg w.queue).1 = no + w.queue.length := by
  refine ⟨?_, drainLoop_count _ _ _⟩
  cases h : w.runningTx with
  | none => simp [watchdogCheck, h] at hfire
  | some tx =>
    by_cases hc : now - w.runningTxAt > 20 * timeSecond
    · simp [watchdogCheck, h, hc]
    · simp [watchdogCheck, h, hc] at hfire

/-- C1 witness: the amended drain behaviour evaluated on the 12-pending
example. -/
theorem C1_drains_entire_queue_witness :
    (watchdogCheck wC1 (21 * timeSecond)).1.isSome = true ∧
    ((watchdogCheck wC1 (21 * timeSecond)).2.queue = [] ∧
     (drainLoop 0 "report" wC1.queue).1 = 0 + wC1.queue.length) :=
  ⟨rfl, C1_drains_entire_queue wC1 (21 * timeSecond) "report" 0 rfl⟩

/-- The diagnostic message contains the name of the World. -/
theorem panicMessage_has_name (w : World) (tx : Transaction) :
    strHas (panicMessage w tx) w.name = true := by
  unfold panicMessage
  apply strHas_append_r
  apply strHas_appendTraces_mono
  apply strHas_append_r
  apply strHas_append_r
  apply strHas_drainLoop_mono
  apply strHas_append_r
  exact strHas_append_l _ _ _ (strHas_self _)

/-- The diagnostic message contains every trace line of the stuck
transaction. -/
theorem panicMessage_has_hanging (w : World) (tx : Transaction) (line : String)
    (h : line ∈ tx.callerInfo) :
    strHas (panicMessage w tx) line = true := by
  unfold panicMessage
  apply strHas_append_r
  exact strHas_appendTraces_mem _ _ _ h

/-- The diagnostic message contains every trace line of each of the first 10
pending transactions. -/
theorem panicMessage_has_pending (w : World) (tx tx2 : Transaction) (line2 : String)
    (htx2 : tx2 ∈ w.queue.take 10) (h : line2 ∈ tx2.callerInfo) :
    strHas (panicMessage w tx) line2 = true := by
  unfold panicMessage
  apply strHas_append_r
  apply strHas_appendTraces_mono
  apply strHas_append_r
  apply strHas_append_r
  have h10 : tx2 ∈ w.queue.take (10 - 0) := by simpa using htx2
  exact strHas_drainLoop_mem _ 0 _ _ _ h10 h

/-- The diagnostic message contains the fixed threshold notice. -/
theorem panicMessage_has_threshold (w : World) (tx : Transaction) :
    strHas (panicMessage w tx) "more than 20 seconds" = true := by
  unfold panicMessage
  apply strHas_append_r
  apply strHas_appendTraces_mono
  apply strHas_append_r
  apply strHas_append_r
  apply strHas_drainLoop_mono
  apply strHas_append_r
  apply strHas_append_r
  apply strHas_append_r
  decide

/-- C2 counterexample: the claim says the fatal message contains the stuck
transaction's elapsed running time. On the code the watchdog produces the very
same message for an elapsed time of 25 seconds, of 1000 seconds and of 3600
seconds (it only ever carries the fixed text "more than 20 seconds"), so the
message cannot contain the stuck transaction's actual elapsed running time. -/
theorem C2_counterexample :
    (watchdogCheck wC2 (25 * timeSecond)).1 = (watchdogCheck wC2 (1000 * timeSecond)).1 ∧
    (watchdogCheck wC2 (25 * timeSecond)).1 = (watchdogCheck wC2 (3600 * timeSecond)).1 ∧
    (watchdogCheck wC2 (25 * timeSecond)).1.isSome = true :=
  ⟨rfl, rfl, rfl⟩

/-- C2 (amended): the fatal diagnostic message raised by the Deadlock Watchdog
contains the World's name, every caller-trace line of the stuck transaction,
every caller-trace line of each of the first (up to) 10 pending queued
transactions, and a fixed notice that the transaction has been running for more
than 20 seconds; the actual elapsed running time is not included. -/
theorem C2_message_contents (w : World) (now : Int) (tx tx2 : Transaction)
    (msg line line2 : String)
    (hrun : w.runningTx = some tx)
    (hmsg : (watchdogCheck w now).1 = some msg)
    (hline : line ∈ tx.callerInfo)
    (htx2 : tx2 ∈ w.queue.take 10)
    (hline2 : line2 ∈ tx2.callerInfo) :
    strHas msg w.name = true ∧
    strHas msg line = true ∧
    strHas msg line2 = true ∧
    strHas msg "more than 20 seconds" = true := by
  have hpm : msg = panicMessage w tx := by
    by_cases hc : now - w.runningTxAt > 20 * timeSecond
    · simp only [watchdogCheck, hrun, hc, if_true] at hmsg
      exact (Option.some.injEq _ _ ▸ hmsg).symm
    · simp [watchdogCheck, hrun, hc] at hmsg
  subst hpm
  exact ⟨panicMessage_has_name w tx,
         panicMessage_has_hanging w tx line hline,
         panicMessage_has_pending w tx tx2 line2 htx2 hline2,
         panicMessage_has_threshold w tx⟩

/-- C2 witness: the amended message-content property evaluated on a concrete
stuck world with one pending transaction. -/
theorem C2_message_contents_witness :
    (wC2.runningTx = some hangTx ∧
     (watchdogCheck wC2 (25 * timeSecond)).1 = some (panicMessage wC2 hangTx) ∧
     "hanging caller" ∈ hangTx.callerInfo ∧
     pendTx ∈ wC2.queue.take 10 ∧
     "pending caller" ∈ pendTx.callerInfo) ∧
    (strHas (panicMessage wC2 hangTx) wC2.name = true ∧
     strHas (panicMessage wC2 hangTx) "hanging caller" = true ∧
     strHas (panicMessage wC2 hangTx) "pending caller" = true ∧
     strHas (panicMessage wC2 hangTx) "more than 20 seconds" = true) :=
  ⟨⟨rfl, rfl, List.Mem.head _, List.Mem.head _, List.Mem.head _⟩,
   C2_message_contents wC2 (25 * timeSecond) hangTx pendTx (panicMessage wC2 hangTx)
     "hanging caller" "pending caller" rfl
     (rfl : (watchdogCheck wC2 (25 * timeSecond)).1 = some (panicMessage wC2 hangTx))
     (List.Mem.head _) (List.Mem.head _) (List.Mem.head _)⟩

/-!
Claims C9, C10: lifecycle counter and the initial tick transaction.
-/

/-- The four background goroutines, listed. -/
def allBgTasks : List BgTask :=
  [BgTask.tickDriver, BgTask.autoSaveWorker, BgTask.executor, BgTask.watchdog]

theorem bgTask_total (t : BgTask) :
    t = BgTask.tickDriver ∨ t = BgTask.autoSaveWorker ∨
    t = BgTask.executor ∨ t = BgTask.watchdog := by
  cases t <;> simp

theorem exitAll_running (ts : List BgTask) (w : World) :
    (exitAll w ts).running = w.running - ts.length := by
  induction ts generalizing w with
  | nil => simp [exitAll]
  | cons t ts ih =>
    simp only [exitAll, List.foldl_cons] at *
    rw [ih]
    cases t <;> simp [bgTaskExit] <;> omega

theorem bgTask_all_mem_length (ts : List BgTask)
    (h1 : BgTask.tickDriver ∈ ts) (h2 : BgTask.autoSaveWorker ∈ ts)
    (h3 : BgTask.executor ∈ ts) (h4 : BgTask.watchdog ∈ ts) :
    4 ≤ ts.length := by
  have hnd : allBgTasks.Nodup := by decide
  have hsub : allBgTasks ⊆ ts := by
    intro x hx
    simp only [allBgTasks, List.mem_cons, List.not_mem_nil, or_false] at hx
    rcases hx with rfl | rfl | rfl | rfl
    exacts [h1, h2, h3, h4]
  have hsp := List.Nodup.subperm hnd hsub
  simpa [allBgTasks] using hsp.length_le

theorem bgTask_mem_of_length (ts : List BgTask) (h : ts.Nodup)
    (hlen : 4 ≤ ts.length) (t : BgTask) : t ∈ ts := by
  by_contra hm
  have hsub : ts ⊆ allBgTasks.erase t := by
    intro x hx
    have hxt : x ≠ t := fun he => hm (he ▸ hx)
    have hxall : x ∈ allBgTasks := by
      rcases bgTask_total x with rfl | rfl | rfl | rfl <;> simp [allBgTasks]
    exact (List.mem_erase_of_ne hxt).mpr hxall
  have hsp := List.Nodup.subperm h hsub
  have hle := hsp.length_le
  have h3 : (allBgTasks.erase t).length = 3 := by
    rcases bgTask_total t with rfl | rfl | rfl | rfl <;> decide
  omega

/-- C9: `Config.New` performs `w.running.Add(4)` (conf.go line 104) before
starting the four background goroutines (Tick Driver, Auto-Save Worker,
Executor, Watchdog; conf.go lines 106-160), so the running-task counter of a
new World is exactly 4; each task decrements the counter by 1 on exit (for the
watchdog, `w.running.Done()` on observing the closing signal, conf.go lines
155-157), so after any set of distinct tasks has exited the counter is 4 minus
their number, and it reaches zero exactly when all four have exited. -/
theorem C9_running_counter (conf : Config) (now : Nat) (s : Settings) (tr : List String)
    (ts : List BgTask) (hnd : ts.Nodup) :
    (Config.New conf now s tr).1.running = 4 ∧
    (exitAll (Config.New conf now s tr).1 ts).running = 4 - ts.length ∧
    ((exitAll (Config.New conf now s tr).1 ts).running = 0 ↔
      (BgTask.tickDriver ∈ ts ∧ BgTask.autoSaveWorker ∈ ts ∧
       BgTask.executor ∈ ts ∧ BgTask.watchdog ∈ ts)) := by
  have hrun : (Config.New conf now s tr).1.running = 4 := rfl
  refine ⟨hrun, ?_, ?_⟩
  · rw [exitAll_running, hrun]
  · rw [exitAll_running, hrun]
    constructor
    · intro h0
      have hge : 4 ≤ ts.length := by omega
      exact ⟨bgTask_mem_of_length ts hnd hge _, bgTask_mem_of_length ts hnd hge _,
             bgTask_mem_of_length ts hnd hge _, bgTask_mem_of_length ts hnd hge _⟩
    · rintro ⟨h1, h2, h3, h4⟩
      have := bgTask_all_mem_length ts h1 h2 h3 h4
      omega

/-- C9 witness: with all four tasks exited, the counter of a freshly created
World reaches zero. -/
theorem C9_running_counter_witness :
    allBgTasks.Nodup ∧
    ((Config.New cfgBlank 7 setBlank ["trace"]).1.running = 4 ∧
     (exitAll (Config.New cfgBlank 7 setBlank ["trace"]).1 allBgTasks).running = 4 - allBgTasks.length ∧
     ((exitAll (Config.New cfgBlank 7 setBlank ["trace"]).1 allBgTasks).running = 0 ↔
       (BgTask.tickDriver ∈ allBgTasks ∧ BgTask.autoSaveWorker ∈ allBgTasks ∧
        BgTask.executor ∈ allBgTasks ∧ BgTask.watchdog ∈ allBgTasks))) :=
  ⟨by decide, C9_running_counter cfgBlank 7 setBlank ["trace"] allBgTasks (by decide)⟩

/-- C10: `Config.New` submits an initial tick transaction to the queue and
blocks on its completion handle (`<-w.Exec(t.tick)`, conf.go line 162) before
returning, so every World returned by `New` has already executed exactly one
transaction, the tick transaction. -/
theorem C10_initial_tick_executed (conf : Config) (now : Nat) (s : Settings) (tr : List String) :
    (Config.New conf now s tr).1.executed = [{ callerInfo := tr, isTick := true }] ∧
    ((Config.New conf now s tr).1.executed.any fun tx => tx.isTick) = true :=
  ⟨rfl, rfl⟩
